import Mathlib

/-!
Verification of the module body of
`FrontEnd/Python/Visualization/npvcube/npvtest.py`.

The script is straight-line glue code:

  csv_file = 'cube_full.csv'
  npv = NpvCube(csv_file)
  trade = '833397AI'
  fig = plt.figure()
  ax = fig.add_subplot(111, projection='3d')
  npv.plot_density(trade, ax, 0.7)
  plt.show()

We embed it shallowly.  The five external calls (the `NpvCube` constructor,
`plt.figure`, `fig.add_subplot`, `npv.plot_density`, `plt.show`) are the only
operations that can raise; their success or failure is abstracted by an
`Oracle` of five booleans, one per call site, in program order.  Executing
the script against an oracle yields the ordered trace of operations actually
performed, the ids of the objects allocated (cube, figure, axes, numbered by
allocation order), the termination outcome, the list of files the script
itself writes (always empty: no statement writes a file), and whether the
interactive window was displayed.  An exception at any call aborts the rest
of the script: the source installs no handler.
-/

namespace Npvtest

/-- The five external call sites of the script, in program order. -/
inductive ExtCall where
  | npvCubeCtor
  | pltFigure
  | addSubplot
  | plotDensity
  | pltShow
deriving DecidableEq, Repr

/-- Behaviour of the external collaborators for one execution: each field
tells whether the corresponding call returns normally (`true`) or raises an
exception (`false`). -/
structure Oracle where
  npvCubeOk : Bool
  figureOk : Bool
  addSubplotOk : Bool
  plotDensityOk : Bool
  showOk : Bool
deriving DecidableEq, Repr

/-- A decimal literal of the source, recorded exactly as written: the digit
string `mantissa` with `frac` digits after the decimal point, so `⟨7, 1⟩` is
the literal `0.7` and its numeric value is `mantissa / 10 ^ frac`. -/
structure DecimalLit where
  mantissa : Nat
  frac : Nat
deriving DecidableEq, Repr

/-- Numeric value of a decimal literal. -/
def DecimalLit.val (l : DecimalLit) : ℚ := l.mantissa / 10 ^ l.frac

/-- Operations the script performs, recorded with their argument values.
Externally created objects (the cube, the figure, the axes) are identified
by allocation ids.  The opacity argument is carried as the exact decimal
literal of the source. -/
inductive Event where
  | callNpvCube (path : String)
  | assignTrade (key : String)
  | callFigure
  | callAddSubplot (figId : Nat) (pos : Nat) (projection : String)
  | callPlotDensity (cubeId : Nat) (key : String) (axId : Nat)
      (opacity : DecimalLit)
  | callShow
deriving DecidableEq, Repr

/-- How an execution of the script ends: normal termination, or an uncaught
exception raised at the given call, propagating to the process boundary. -/
inductive Outcome where
  | success
  | uncaught (c : ExtCall)
deriving DecidableEq, Repr

/-- Observable result of one execution of the script. -/
structure ScriptResult where
  trace : List Event
  outcome : Outcome
  cube : Option Nat
  fig : Option Nat
  ax : Option Nat
  filesWritten : List String
  windowDisplayed : Bool
deriving DecidableEq, Repr

/-- Source line `csv_file = 'cube_full.csv'`. -/
def csv_file : String := "cube_full.csv"

/-- Source line `trade = '833397AI'`. -/
def trade : String := "833397AI"

/-- The numeric literal `0.7` passed as third argument to `plot_density`. -/
def opacityArg : DecimalLit := ⟨7, 1⟩

/-- Shallow embedding of the module body of `npvtest.py`.  Statements run in
source order; each external call consults the oracle; a raising call ends
the execution at once (no handler exists in the source).  The value of the
process argument vector `argv` is taken as a parameter solely so that
independence from it can be stated; no statement of the source reads it. -/
def runScript (o : Oracle) (argv : List String) : ScriptResult :=
  let _ := argv
  -- npv = NpvCube(csv_file)
  let t1 : List Event := [Event.callNpvCube csv_file]
  if !o.npvCubeOk then
    { trace := t1, outcome := Outcome.uncaught ExtCall.npvCubeCtor,
      cube := none, fig := none, ax := none,
      filesWritten := [], windowDisplayed := false }
  else
    let npv : Nat := 0
    -- trade = '833397AI'
    let t2 := t1 ++ [Event.assignTrade trade]
    -- fig = plt.figure()
    let t3 := t2 ++ [Event.callFigure]
    if !o.figureOk then
      { trace := t3, outcome := Outcome.uncaught ExtCall.pltFigure,
        cube := some npv, fig := none, ax := none,
        filesWritten := [], windowDisplayed := false }
    else
      let figv : Nat := 1
      -- ax = fig.add_subplot(111, projection='3d')
      let t4 := t3 ++ [Event.callAddSubplot figv 111 "3d"]
      if !o.addSubplotOk then
        { trace := t4, outcome := Outcome.uncaught ExtCall.addSubplot,
          cube := some npv, fig := some figv, ax := none,
          filesWritten := [], windowDisplayed := false }
      else
        let axv : Nat := 2
        -- npv.plot_density(trade, ax, 0.7)
        let t5 := t4 ++ [Event.callPlotDensity npv trade axv opacityArg]
        if !o.plotDensityOk then
          { trace := t5, outcome := Outcome.uncaught ExtCall.plotDensity,
            cube := some npv, fig := some figv, ax := some axv,
            filesWritten := [], windowDisplayed := false }
        else
          -- plt.show()
          let t6 := t5 ++ [Event.callShow]
          if !o.showOk then
            { trace := t6, outcome := Outcome.uncaught ExtCall.pltShow,
              cube := some npv, fig := some figv, ax := some axv,
              filesWritten := [], windowDisplayed := false }
          else
            { trace := t6, outcome := Outcome.success,
              cube := some npv, fig := some figv, ax := some axv,
              filesWritten := [], windowDisplayed := true }

/-- All five external calls return normally. -/
def allOk (o : Oracle) : Bool :=
  o.npvCubeOk && o.figureOk && o.addSubplotOk && o.plotDensityOk && o.showOk

/-- The first call whose oracle flag is `false`, in program order, if any. -/
def firstRaising (o : Oracle) : Option ExtCall :=
  if !o.npvCubeOk then some ExtCall.npvCubeCtor
  else if !o.figureOk then some ExtCall.pltFigure
  else if !o.addSubplotOk then some ExtCall.addSubplot
  else if !o.plotDensityOk then some ExtCall.plotDensity
  else if !o.showOk then some ExtCall.pltShow
  else none

/-- The complete trace of a fully successful execution. -/
def fullTrace : List Event :=
  [Event.callNpvCube csv_file, Event.assignTrade trade, Event.callFigure,
   Event.callAddSubplot 1 111 "3d",
   Event.callPlotDensity 0 trade 2 opacityArg, Event.callShow]

/-- Recognizer for the cube-constructor event. -/
def Event.isNpvCube : Event → Bool
  | Event.callNpvCube _ => true
  | _ => false

/-- Recognizer for the subplot-creation event. -/
def Event.isAddSubplot : Event → Bool
  | Event.callAddSubplot _ _ _ => true
  | _ => false

/-- Recognizer for the density-render event. -/
def Event.isPlotDensity : Event → Bool
  | Event.callPlotDensity _ _ _ _ => true
  | _ => false

/-- Events in which the cube object takes part: its construction and the
single method call made on it. -/
def Event.usesCube : Event → Bool
  | Event.callNpvCube _ => true
  | Event.callPlotDensity _ _ _ _ => true
  | _ => false

/-- Number of density-render calls in a trace. -/
def renderCalls (t : List Event) : Nat :=
  (t.filter Event.isPlotDensity).length

/-- Number of cube-constructor calls in a trace. -/
def ctorCalls (t : List Event) : Nat :=
  (t.filter Event.isNpvCube).length

/-- The fixed path and record key of the source: the constructor is only
ever called on `cube_full.csv` and the render only ever on `833397AI`. -/
def Event.argsFixed : Event → Bool
  | Event.callNpvCube p => p == "cube_full.csv"
  | Event.callPlotDensity _ k _ _ => k == "833397AI"
  | _ => true

end Npvtest

namespace Npvtest

/-- Claim C1: for every execution in which the cube constructor, the
density-render call, and the display call all succeed (together with the
figure and subplot creation they depend on), the script loads the cube from
the CSV path, renders the density plot for record `833397AI`, and displays a
figure, terminating without error. -/
theorem c1_success_run (o : Oracle) (argv : List String) (h : allOk o = true) :
    (runScript o argv).outcome = Outcome.success ∧
    (runScript o argv).windowDisplayed = true ∧
    (runScript o argv).trace = fullTrace := by
  have hv : runScript o argv = runScript o [] := rfl
  rw [hv]
  revert h
  rcases o with ⟨a, b, c, d, e⟩
  cases a <;> cases b <;> cases c <;> cases d <;> cases e <;> decide

/-- Witness for C1 at the all-successful oracle. -/
theorem c1_success_run_witness :
    (runScript ⟨true, true, true, true, true⟩ []).outcome = Outcome.success ∧
    (runScript ⟨true, true, true, true, true⟩ []).windowDisplayed = true ∧
    (runScript ⟨true, true, true, true, true⟩ []).trace = fullTrace :=
  c1_success_run ⟨true, true, true, true, true⟩ [] (by decide)

/-- Counterexample to C2 as stated: in the execution in which the cube
constructor raises, the script invokes zero rendering methods, not exactly
one. -/
theorem c2_counterexample :
    renderCalls (runScript ⟨false, true, true, true, true⟩ []).trace = 0 := by
  decide

/-- Claim C2 (amended): in every execution at most one rendering method is
invoked on the cube; and in every execution that reaches the render call
(constructor, figure and subplot creation succeed), exactly one rendering
call is made, with exactly the three arguments, in order: the record key
`833397AI`, the created plot surface, and the numeric literal `0.7`. -/
theorem c2_render_call (o : Oracle) (argv : List String) :
    opacityArg.val = 7/10 ∧
    renderCalls (runScript o argv).trace ≤ 1 ∧
    ((o.npvCubeOk && o.figureOk && o.addSubplotOk) = true →
      (runScript o argv).trace.filter Event.isPlotDensity
        = [Event.callPlotDensity 0 trade 2 opacityArg]) := by
  have hv : runScript o argv = runScript o [] := rfl
  rw [hv]
  refine ⟨by norm_num [opacityArg, DecimalLit.val], ?_⟩
  rcases o with ⟨a, b, c, d, e⟩
  cases a <;> cases b <;> cases c <;> cases d <;> cases e <;> decide

/-- Witness for the amended C2 at the all-successful oracle. -/
theorem c2_render_call_witness :
    opacityArg.val = 7/10 ∧
    renderCalls (runScript ⟨true, true, true, true, true⟩ []).trace ≤ 1 ∧
    (runScript ⟨true, true, true, true, true⟩ []).trace.filter
        Event.isPlotDensity
      = [Event.callPlotDensity 0 trade 2 opacityArg] :=
  ⟨(c2_render_call ⟨true, true, true, true, true⟩ []).1,
   (c2_render_call ⟨true, true, true, true, true⟩ []).2.1,
   (c2_render_call ⟨true, true, true, true, true⟩ []).2.2 (by decide)⟩

/-- Claim C3: the script installs no exception handler, so the outcome of
every execution is exactly determined by the first raising external call:
success when none raises, and otherwise an uncaught exception at that call
propagating to the process boundary; in particular the execution succeeds
iff every external call succeeds. -/
theorem c3_uncaught_propagation (o : Oracle) (argv : List String) :
    (runScript o argv).outcome
      = (firstRaising o).elim Outcome.success Outcome.uncaught ∧
    ((runScript o argv).outcome = Outcome.success ↔ allOk o = true) := by
  have hv : runScript o argv = runScript o [] := rfl
  rw [hv]
  rcases o with ⟨a, b, c, d, e⟩
  cases a <;> cases b <;> cases c <;> cases d <;> cases e <;> decide

/-- Counterexample to C4 as stated: in the execution in which the cube
constructor raises, the five steps do not all occur — neither the render
call nor the display call is ever made. -/
theorem c4_counterexample :
    (runScript ⟨false, true, true, true, true⟩ []).trace.filter
        Event.isPlotDensity = [] ∧
    Event.callShow ∉ (runScript ⟨false, true, true, true, true⟩ []).trace := by
  decide

/-- Claim C4 (amended): every execution performs a prefix of the fixed
statement sequence load, select key, create figure, create 3-D surface,
render, display — so whichever steps occur, they occur in that order; and in
every execution in which all external calls succeed, all steps occur, the
display call is last, and nothing follows it. -/
theorem c4_step_order (o : Oracle) (argv : List String) :
    (runScript o argv).trace
      = fullTrace.take (runScript o argv).trace.length ∧
    (allOk o = true →
      (runScript o argv).trace = fullTrace ∧
      (runScript o argv).trace.getLast? = some Event.callShow) := by
  have hv : runScript o argv = runScript o [] := rfl
  rw [hv]
  rcases o with ⟨a, b, c, d, e⟩
  cases a <;> cases b <;> cases c <;> cases d <;> cases e <;> decide

/-- Witness for the amended C4 at the all-successful oracle. -/
theorem c4_step_order_witness :
    (runScript ⟨true, true, true, true, true⟩ []).trace = fullTrace ∧
    (runScript ⟨true, true, true, true, true⟩ []).trace.getLast?
      = some Event.callShow :=
  (c4_step_order ⟨true, true, true, true, true⟩ []).2 (by decide)

/-- Counterexample to C5 as stated: in the execution in which figure
creation raises, one cube object has been constructed but zero method calls
are made on it, so it is not the case that every execution makes exactly one
method call on the cube. -/
theorem c5_counterexample :
    (runScript ⟨true, false, true, true, true⟩ []).cube = some 0 ∧
    renderCalls (runScript ⟨true, false, true, true, true⟩ []).trace = 0 := by
  decide

/-- Claim C5 (amended): every execution performs exactly one load attempt
from the file path, so the cube is never reloaded; at most one method call
is ever made on the cube; the only events involving the cube are its
construction followed (at most once, and never again afterwards) by the
single density-render call; and in every execution reaching the render call
exactly one method call is made on the cube. -/
theorem c5_single_load_single_use (o : Oracle) (argv : List String) :
    ctorCalls (runScript o argv).trace = 1 ∧
    renderCalls (runScript o argv).trace ≤ 1 ∧
    (runScript o argv).trace.filter Event.usesCube
      = ([Event.callNpvCube csv_file,
          Event.callPlotDensity 0 trade 2 opacityArg].take
          ((runScript o argv).trace.filter Event.usesCube).length) ∧
    ((o.npvCubeOk && o.figureOk && o.addSubplotOk) = true →
      (runScript o argv).trace.filter Event.usesCube
        = [Event.callNpvCube csv_file,
           Event.callPlotDensity 0 trade 2 opacityArg]) := by
  have hv : runScript o argv = runScript o [] := rfl
  rw [hv]
  rcases o with ⟨a, b, c, d, e⟩
  cases a <;> cases b <;> cases c <;> cases d <;> cases e <;> decide

/-- Witness for the amended C5 at the all-successful oracle. -/
theorem c5_single_load_single_use_witness :
    ctorCalls (runScript ⟨true, true, true, true, true⟩ []).trace = 1 ∧
    (runScript ⟨true, true, true, true, true⟩ []).trace.filter Event.usesCube
      = [Event.callNpvCube csv_file,
         Event.callPlotDensity 0 trade 2 opacityArg] :=
  ⟨(c5_single_load_single_use ⟨true, true, true, true, true⟩ []).1,
   (c5_single_load_single_use ⟨true, true, true, true, true⟩ []).2.2.2
     (by decide)⟩

/-- Counterexample to C6 as stated: in the execution in which the cube
constructor raises, no plot surface is ever created, so it is not the case
that the plot surface is created exactly once in every execution. -/
theorem c6_counterexample :
    (runScript ⟨false, true, true, true, true⟩ []).trace.filter
        Event.isAddSubplot = [] := by
  decide

/-- Claim C6 (amended): in every execution at most one subplot creation
occurs, and any subplot creation is made on the created figure (id 1) with
position 111 and a 3-D projection; in every execution reaching the render
call, the surface is created exactly once, the axes object recorded in the
result is the one the creation returned (id 2), and the render call receives
that identical object (the same id 2) as its surface argument. -/
theorem c6_surface_identity (o : Oracle) (argv : List String) :
    (runScript o argv).trace.filter Event.isAddSubplot
      = ([Event.callAddSubplot 1 111 "3d"].take
          ((runScript o argv).trace.filter Event.isAddSubplot).length) ∧
    ((o.npvCubeOk && o.figureOk && o.addSubplotOk) = true →
      (runScript o argv).trace.filter Event.isAddSubplot
        = [Event.callAddSubplot 1 111 "3d"] ∧
      (runScript o argv).fig = some 1 ∧
      (runScript o argv).ax = some 2 ∧
      (runScript o argv).trace.filter Event.isPlotDensity
        = [Event.callPlotDensity 0 trade 2 opacityArg]) := by
  have hv : runScript o argv = runScript o [] := rfl
  rw [hv]
  rcases o with ⟨a, b, c, d, e⟩
  cases a <;> cases b <;> cases c <;> cases d <;> cases e <;> decide

/-- Witness for the amended C6 at the all-successful oracle. -/
theorem c6_surface_identity_witness :
    (runScript ⟨true, true, true, true, true⟩ []).trace.filter
        Event.isAddSubplot = [Event.callAddSubplot 1 111 "3d"] ∧
    (runScript ⟨true, true, true, true, true⟩ []).fig = some 1 ∧
    (runScript ⟨true, true, true, true, true⟩ []).ax = some 2 ∧
    (runScript ⟨true, true, true, true, true⟩ []).trace.filter
        Event.isPlotDensity
      = [Event.callPlotDensity 0 trade 2 opacityArg] :=
  (c6_surface_identity ⟨true, true, true, true, true⟩ []).2 (by decide)

/-- Claim C7: the script reads no command-line arguments: two invocations
differing only in their argument vectors produce identical executions —
the same trace, outcome, allocations and effects. -/
theorem c7_argv_independent (o : Oracle) (argv1 argv2 : List String) :
    runScript o argv1 = runScript o argv2 := rfl

/-- Claim C8: the script writes no persisted output file in any execution;
its only output effect is the interactive window shown by the display call,
which appears exactly when every external call succeeds. -/
theorem c8_no_file_output (o : Oracle) (argv : List String) :
    (runScript o argv).filesWritten = [] ∧
    ((runScript o argv).windowDisplayed = true ↔ allOk o = true) := by
  have hv : runScript o argv = runScript o [] := rfl
  rw [hv]
  rcases o with ⟨a, b, c, d, e⟩
  cases a <;> cases b <;> cases c <;> cases d <;> cases e <;> decide

/-- Claim C9: the input path and the record key are the fixed string
literals of the source: in every execution every constructor call receives
exactly the path `cube_full.csv` and every render call receives exactly the
record key `833397AI`, independent of the argument vector. -/
theorem c9_fixed_literals (o : Oracle) (argv : List String) :
    csv_file = "cube_full.csv" ∧ trade = "833397AI" ∧
    (runScript o argv).trace.all Event.argsFixed = true := by
  have hv : runScript o argv = runScript o [] := rfl
  rw [hv]
  rcases o with ⟨a, b, c, d, e⟩
  cases a <;> cases b <;> cases c <;> cases d <;> cases e <;> decide

/-- Claim C10: if the cube constructor raises, no graphical state is ever
allocated: no cube, no figure and no axes exist, the trace holds nothing but
the failed load attempt, and the execution ends with that uncaught
exception. -/
theorem c10_no_graphics_on_load_failure (o : Oracle) (argv : List String)
    (h : o.npvCubeOk = false) :
    (runScript o argv).cube = none ∧
    (runScript o argv).fig = none ∧
    (runScript o argv).ax = none ∧
    (runScript o argv).trace = [Event.callNpvCube csv_file] ∧
    (runScript o argv).outcome = Outcome.uncaught ExtCall.npvCubeCtor := by
  have hv : runScript o argv = runScript o [] := rfl
  rw [hv]
  revert h
  rcases o with ⟨a, b, c, d, e⟩
  cases a <;> cases b <;> cases c <;> cases d <;> cases e <;> decide

/-- Witness for C10 at an oracle whose constructor call raises. -/
theorem c10_no_graphics_on_load_failure_witness :
    (runScript ⟨false, true, true, true, true⟩ []).cube = none ∧
    (runScript ⟨false, true, true, true, true⟩ []).fig = none ∧
    (runScript ⟨false, true, true, true, true⟩ []).ax = none ∧
    (runScript ⟨false, true, true, true, true⟩ []).trace
      = [Event.callNpvCube csv_file] ∧
    (runScript ⟨false, true, true, true, true⟩ []).outcome
      = Outcome.uncaught ExtCall.npvCubeCtor :=
  c10_no_graphics_on_load_failure ⟨false, true, true, true, true⟩ [] rfl

end Npvtest
